import Mathlib

/-!
Shallow embedding of the geometry/statistics core of the cube-regression
repository (src/app/components/RegressionStats.tsx and
src/app/components/RegressionCube.tsx), together with theorems settling the
frozen claims about it.

Numbers are modelled as real numbers; the JavaScript Math.sin, Math.cos and
Math.PI become Real.sin, Real.cos and Real.pi. The unseeded Math.random()
source is modelled as an injected stream of draws (a function from draw index
to real), as suggested by the design notes of the specification; hypotheses
state that each draw lies in the interval [0, 1), matching Math.random().
-/

noncomputable section

open Real

/-- Point3D from RegressionStats.tsx / RegressionCube.tsx: one observation
with independent coordinates x, z and dependent coordinate y. -/
structure Point3D where
  x : ℝ
  y : ℝ
  z : ℝ

/-- Result record of calculatePlaneEquation in RegressionStats.tsx:
coefficients of the explicit form y = beta0 + beta1 * x + beta2 * z together
with the raw normal vector [normalX, normalY, normalZ]. -/
structure PlaneEquation where
  beta0 : ℝ
  beta1 : ℝ
  beta2 : ℝ
  normalVector : ℝ × ℝ × ℝ

/-- First component of the returned normal vector (normalX in the source). -/
def PlaneEquation.normalX (e : PlaneEquation) : ℝ := e.normalVector.1

/-- Second component of the returned normal vector (normalY in the source). -/
def PlaneEquation.normalY (e : PlaneEquation) : ℝ := e.normalVector.2.1

/-- Third component of the returned normal vector (normalZ in the source). -/
def PlaneEquation.normalZ (e : PlaneEquation) : ℝ := e.normalVector.2.2

/-- calculatePlaneEquation from RegressionStats.tsx, lines 11 to 42,
translated clause by clause: angles are converted to radians, a base rotation
of 90 degrees about the x axis is added, the normal vector and the implicit
constant d are computed, and the explicit coefficients are obtained by
dividing by normalY. Division is real division (in Lean, t / 0 = 0). -/
def calculatePlaneEquation (height xRotation zRotation cubeSize : ℝ) :
    PlaneEquation :=
  let xRad := xRotation * Real.pi / 180
  let zRad := zRotation * Real.pi / 180
  let initialXRotation := Real.pi / 2
  let effectiveXRad := initialXRotation + xRad
  let normalX := Real.sin effectiveXRad
  let normalY := Real.cos effectiveXRad * Real.cos zRad
  let normalZ := Real.sin zRad * Real.cos effectiveXRad
  let yPosition := height * cubeSize - cubeSize / 2
  let d := -normalX * 0 - normalY * yPosition - normalZ * 0
  let beta0 := -d / normalY
  let beta1 := -normalX / normalY
  let beta2 := -normalZ / normalY
  { beta0 := beta0, beta1 := beta1, beta2 := beta2,
    normalVector := (normalX, normalY, normalZ) }

/-- calculateError from RegressionStats.tsx, lines 45 to 60: a left fold over
the points starting from 0, adding the squared residual of each point. -/
def calculateError (points : List Point3D) (equation : PlaneEquation) : ℝ :=
  points.foldl (fun totalError point =>
    let predictedY :=
      equation.beta0 + equation.beta1 * point.x + equation.beta2 * point.z
    let error := (point.y - predictedY) ^ 2
    totalError + error) 0

/-- Constant CUBE_SIZE = 5 from RegressionCube.tsx. -/
def CUBE_SIZE : ℝ := 5

/-- Constant HALF_SIZE = CUBE_SIZE / 2 from RegressionCube.tsx. -/
def HALF_SIZE : ℝ := CUBE_SIZE / 2

/-- Body of the map in generateDataPoints (RegressionCube.tsx, lines 104 to
129) for one point, with the three Math.random() draws of that iteration made
explicit in source order: r1 for x, r2 for z, r3 for the noise term. -/
def generatePoint (noise r1 r2 r3 : ℝ) : Point3D :=
  let trueBeta0 : ℝ := 0
  let trueBeta1 : ℝ := 0.5
  let trueBeta2 : ℝ := -0.3
  let x := (r1 - 0.5) * CUBE_SIZE * 0.8
  let z := (r2 - 0.5) * CUBE_SIZE * 0.8
  let y := trueBeta0 + trueBeta1 * x + trueBeta2 * z +
    (r3 - 0.5) * noise * CUBE_SIZE * 0.4
  let clampedY := max (-HALF_SIZE * 0.9) (min (HALF_SIZE * 0.9) y)
  { x := x, y := clampedY, z := z }

/-- generateDataPoints from RegressionCube.tsx, lines 104 to 129: builds
count points, iteration i consuming random draws 3i, 3i+1, 3i+2 of the
injected stream rand. -/
def generateDataPoints (count : ℕ) (noise : ℝ) (rand : ℕ → ℝ) :
    List Point3D :=
  (List.range count).map fun i =>
    generatePoint noise (rand (3 * i)) (rand (3 * i + 1)) (rand (3 * i + 2))

/-- Predicted y computed inside ErrorLines (RegressionCube.tsx, lines 160 to
215) for one point: the same normal-vector and d formulas are recomputed from
the angles with the module constants CUBE_SIZE and HALF_SIZE, and the plane is
solved for y at the x and z of the point. -/
def errorLinesPredictedY (height xRotation zRotation : ℝ)
    (point : Point3D) : ℝ :=
  let xRad := xRotation * Real.pi / 180
  let zRad := zRotation * Real.pi / 180
  let initialXRotation := Real.pi / 2
  let effectiveXRad := initialXRotation + xRad
  let normalX := Real.sin effectiveXRad
  let normalY := Real.cos effectiveXRad * Real.cos zRad
  let normalZ := Real.sin zRad * Real.cos effectiveXRad
  let yPosition := height * CUBE_SIZE - HALF_SIZE
  let d := -normalX * 0 - normalY * yPosition - normalZ * 0
  (-normalX * point.x - normalZ * point.z - d) / normalY

/-- Residual segment drawn by ErrorLines for one point: the vertices array
[point.x, point.y, point.z, point.x, predictedY, point.z] as a pair of
endpoints, the observed point and its vertical projection on the plane. -/
def errorLinesSegment (height xRotation zRotation : ℝ)
    (point : Point3D) : Point3D × Point3D :=
  (point,
    { x := point.x,
      y := errorLinesPredictedY height xRotation zRotation point,
      z := point.z })

end

/-! Unfolding lemmas: each projection of calculatePlaneEquation written out,
provable by rfl, so that proofs can work with the raw trigonometric
expressions of the source. -/

/-- The normal vector returned by calculatePlaneEquation, written out. -/
lemma calculatePlaneEquation_normalVector (h x z c : ℝ) :
    (calculatePlaneEquation h x z c).normalVector =
      (Real.sin (Real.pi / 2 + x * Real.pi / 180),
       Real.cos (Real.pi / 2 + x * Real.pi / 180) *
         Real.cos (z * Real.pi / 180),
       Real.sin (z * Real.pi / 180) *
         Real.cos (Real.pi / 2 + x * Real.pi / 180)) := rfl

/-- The y component of the normal vector, written out. -/
lemma calculatePlaneEquation_normalY (h x z c : ℝ) :
    (calculatePlaneEquation h x z c).normalY =
      Real.cos (Real.pi / 2 + x * Real.pi / 180) *
        Real.cos (z * Real.pi / 180) := rfl

/-- The x component of the normal vector, written out. -/
lemma calculatePlaneEquation_normalX (h x z c : ℝ) :
    (calculatePlaneEquation h x z c).normalX =
      Real.sin (Real.pi / 2 + x * Real.pi / 180) := rfl

/-- The z component of the normal vector, written out. -/
lemma calculatePlaneEquation_normalZ (h x z c : ℝ) :
    (calculatePlaneEquation h x z c).normalZ =
      Real.sin (z * Real.pi / 180) *
        Real.cos (Real.pi / 2 + x * Real.pi / 180) := rfl

/-- The intercept beta0, written out: beta0 = -d / normalY with the d of the
source. -/
lemma calculatePlaneEquation_beta0 (h x z c : ℝ) :
    (calculatePlaneEquation h x z c).beta0 =
      -(-Real.sin (Real.pi / 2 + x * Real.pi / 180) * 0 -
          Real.cos (Real.pi / 2 + x * Real.pi / 180) *
            Real.cos (z * Real.pi / 180) * (h * c - c / 2) -
          Real.sin (z * Real.pi / 180) *
            Real.cos (Real.pi / 2 + x * Real.pi / 180) * 0) /
        (Real.cos (Real.pi / 2 + x * Real.pi / 180) *
          Real.cos (z * Real.pi / 180)) := rfl

/-- The x coefficient beta1, written out. -/
lemma calculatePlaneEquation_beta1 (h x z c : ℝ) :
    (calculatePlaneEquation h x z c).beta1 =
      -Real.sin (Real.pi / 2 + x * Real.pi / 180) /
        (Real.cos (Real.pi / 2 + x * Real.pi / 180) *
          Real.cos (z * Real.pi / 180)) := rfl

/-- The z coefficient beta2, written out. -/
lemma calculatePlaneEquation_beta2 (h x z c : ℝ) :
    (calculatePlaneEquation h x z c).beta2 =
      -(Real.sin (z * Real.pi / 180) *
          Real.cos (Real.pi / 2 + x * Real.pi / 180)) /
        (Real.cos (Real.pi / 2 + x * Real.pi / 180) *
          Real.cos (z * Real.pi / 180)) := rfl

/-- The predicted y of ErrorLines, written out. -/
lemma errorLinesPredictedY_eq (h x z : ℝ) (p : Point3D) :
    errorLinesPredictedY h x z p =
      (-Real.sin (Real.pi / 2 + x * Real.pi / 180) * p.x -
          Real.sin (z * Real.pi / 180) *
            Real.cos (Real.pi / 2 + x * Real.pi / 180) * p.z -
          (-Real.sin (Real.pi / 2 + x * Real.pi / 180) * 0 -
            Real.cos (Real.pi / 2 + x * Real.pi / 180) *
              Real.cos (z * Real.pi / 180) * (h * CUBE_SIZE - HALF_SIZE) -
            Real.sin (z * Real.pi / 180) *
              Real.cos (Real.pi / 2 + x * Real.pi / 180) * 0)) /
        (Real.cos (Real.pi / 2 + x * Real.pi / 180) *
          Real.cos (z * Real.pi / 180)) := rfl

/-- At xRotation = 0 the effective x angle is exactly 90 degrees, so the
cosine factor of normalY vanishes. -/
lemma cos_effective_xRad_zero :
    Real.cos (Real.pi / 2 + 0 * Real.pi / 180) = 0 := by
  norm_num [Real.cos_pi_div_two]

/-- At xRotation = 90 the effective x angle is exactly 180 degrees. -/
lemma cos_effective_xRad_ninety :
    Real.cos (Real.pi / 2 + 90 * Real.pi / 180) = -1 := by
  have h : Real.pi / 2 + 90 * Real.pi / 180 = Real.pi := by ring
  rw [h, Real.cos_pi]

/-- The y component of the normal never vanishes for angles chosen by the UI
sliders, except on the line xRotation = 0 where it is exactly zero; this
helper gives the nonvanishing direction used by witnesses. -/
lemma normalY_at_ninety_zero (h c : ℝ) :
    (calculatePlaneEquation h 90 0 c).normalY = -1 := by
  rw [calculatePlaneEquation_normalY, cos_effective_xRad_ninety]
  norm_num

/-! Claim theorems. -/

/-- C1: the claim states that for height = 0.5, xRotation = 0, zRotation = 0,
cubeSize = 5, calculatePlaneEquation returns beta1 = 0, beta2 = 0, beta0 = 0,
a horizontal plane through the origin. The code instead computes the normal
vector (1, 0, 0): its y component cos(pi/2 + 0) * cos(0) is exactly zero, so
the implicit plane x = 0 is vertical, and the betas come from a division by
zero (in the JavaScript doubles, normalY is about 6.1e-17 and the displayed
beta1 is about -1.6e16). The sin and cos roles in the normal derivation are
swapped relative to the base 90 degree rotation the comments describe. -/
theorem c1_default_inputs_give_vertical_normal :
    (calculatePlaneEquation 0.5 0 0 5).normalVector = (1, 0, 0) := by
  rw [calculatePlaneEquation_normalVector]
  norm_num [Real.cos_pi_div_two, Real.sin_pi_div_two]

/-- C2: the claim states that for all rotations in [-70, 70] the y component
of the normal is nonzero. It is refuted on the whole line xRotation = 0,
which the sliders allow (it is the initial state): there the y component is
cos(pi/2) * cos(zRad) = 0, for every height, zRotation and cube size. -/
theorem c2_normalY_vanishes_at_zero_xRotation
    (height zRotation cubeSize : ℝ) :
    (calculatePlaneEquation height 0 zRotation cubeSize).normalY = 0 := by
  rw [calculatePlaneEquation_normalY, cos_effective_xRad_zero, zero_mul]

/-- C3: whenever the computed normal has nonzero y component, the explicit
coefficients represent the plane: for all x and z the point
(x, beta0 + beta1 * x + beta2 * z, z) satisfies
normalX * x + normalY * y + normalZ * z + d = 0 with
d = -normalY * (height * cubeSize - cubeSize / 2). -/
theorem c3_explicit_coeffs_satisfy_implicit_equation
    (height xRotation zRotation cubeSize x z : ℝ)
    (hb : (calculatePlaneEquation height xRotation zRotation
      cubeSize).normalY ≠ 0) :
    (calculatePlaneEquation height xRotation zRotation cubeSize).normalX * x +
      (calculatePlaneEquation height xRotation zRotation cubeSize).normalY *
        ((calculatePlaneEquation height xRotation zRotation cubeSize).beta0 +
          (calculatePlaneEquation height xRotation zRotation
            cubeSize).beta1 * x +
          (calculatePlaneEquation height xRotation zRotation
            cubeSize).beta2 * z) +
      (calculatePlaneEquation height xRotation zRotation cubeSize).normalZ *
        z +
      -(calculatePlaneEquation height xRotation zRotation cubeSize).normalY *
        (height * cubeSize - cubeSize / 2) = 0 := by
  rw [calculatePlaneEquation_normalY] at hb
  rw [calculatePlaneEquation_normalX, calculatePlaneEquation_normalY,
    calculatePlaneEquation_normalZ, calculatePlaneEquation_beta0,
    calculatePlaneEquation_beta1, calculatePlaneEquation_beta2]
  generalize Real.sin (Real.pi / 2 + xRotation * Real.pi / 180) = sA
  generalize Real.sin (zRotation * Real.pi / 180) = sB
  generalize hgA : Real.cos (Real.pi / 2 + xRotation * Real.pi / 180) = cA
    at hb
  generalize hgB : Real.cos (zRotation * Real.pi / 180) = cB at hb
  obtain ⟨ha, hc⟩ := mul_ne_zero_iff.mp hb
  field_simp
  ring

/-- C3 witness: the theorem applied at height = 0, xRotation = 90,
zRotation = 0, cubeSize = 5, x = 1, z = 2, where the y component of the
normal is -1. -/
theorem c3_witness :
    (calculatePlaneEquation 0 90 0 5).normalX * 1 +
      (calculatePlaneEquation 0 90 0 5).normalY *
        ((calculatePlaneEquation 0 90 0 5).beta0 +
          (calculatePlaneEquation 0 90 0 5).beta1 * 1 +
          (calculatePlaneEquation 0 90 0 5).beta2 * 2) +
      (calculatePlaneEquation 0 90 0 5).normalZ * 2 +
      -(calculatePlaneEquation 0 90 0 5).normalY * (0 * 5 - 5 / 2) = 0 :=
  c3_explicit_coeffs_satisfy_implicit_equation 0 90 0 5 1 2
    (by rw [normalY_at_ninety_zero]; norm_num)

/-- C4: for rotations strictly inside (-70, 70) on both axes the returned
normal vector has unit length; in fact the identity
sin(e)^2 + (cos(e)cos(z))^2 + (sin(z)cos(e))^2 = 1 needs no range
restriction at all. -/
theorem c4_normal_vector_unit_length (height xRotation zRotation cubeSize : ℝ)
    (hx1 : -70 < xRotation) (hx2 : xRotation < 70)
    (hz1 : -70 < zRotation) (hz2 : zRotation < 70) :
    (calculatePlaneEquation height xRotation zRotation cubeSize).normalX ^ 2 +
      (calculatePlaneEquation height xRotation zRotation
        cubeSize).normalY ^ 2 +
      (calculatePlaneEquation height xRotation zRotation
        cubeSize).normalZ ^ 2 = 1 := by
  rw [calculatePlaneEquation_normalX, calculatePlaneEquation_normalY,
    calculatePlaneEquation_normalZ]
  have h1 := Real.sin_sq_add_cos_sq (zRotation * Real.pi / 180)
  have h2 := Real.sin_sq_add_cos_sq
    (Real.pi / 2 + xRotation * Real.pi / 180)
  linear_combination
    Real.cos (Real.pi / 2 + xRotation * Real.pi / 180) ^ 2 * h1 + h2

/-- C4 witness: the theorem applied at height = 0.5, rotations 0 and 0,
cubeSize = 5, all hypotheses numeric. -/
theorem c4_witness :
    (calculatePlaneEquation 0.5 0 0 5).normalX ^ 2 +
      (calculatePlaneEquation 0.5 0 0 5).normalY ^ 2 +
      (calculatePlaneEquation 0.5 0 0 5).normalZ ^ 2 = 1 :=
  c4_normal_vector_unit_length 0.5 0 0 5 (by norm_num) (by norm_num)
    (by norm_num) (by norm_num)

/-- C10: whenever the computed normal has nonzero y component, the intercept
beta0 equals the world space height offset height * cubeSize - cubeSize / 2,
independently of the rotation angles. -/
theorem c10_beta0_equals_height_offset (height xRotation zRotation cubeSize : ℝ)
    (hb : (calculatePlaneEquation height xRotation zRotation
      cubeSize).normalY ≠ 0) :
    (calculatePlaneEquation height xRotation zRotation cubeSize).beta0 =
      height * cubeSize - cubeSize / 2 := by
  rw [calculatePlaneEquation_normalY] at hb
  rw [calculatePlaneEquation_beta0]
  generalize hgA : Real.cos (Real.pi / 2 + xRotation * Real.pi / 180) = cA
    at hb
  generalize hgB : Real.cos (zRotation * Real.pi / 180) = cB at hb
  obtain ⟨ha, hc⟩ := mul_ne_zero_iff.mp hb
  field_simp
  ring

/-- C10 witness: the theorem applied at height = 1, xRotation = 90,
zRotation = 0, cubeSize = 5, where the y component of the normal is -1; the
intercept is 1 * 5 - 5 / 2. -/
theorem c10_witness :
    (calculatePlaneEquation 1 90 0 5).beta0 = 1 * 5 - 5 / 2 :=
  c10_beta0_equals_height_offset 1 90 0 5
    (by rw [normalY_at_ninety_zero]; norm_num)

/-- Left folds that add a function of each element compute the sum of the
mapped list, shifted by the initial accumulator. -/
lemma foldl_add_eq_sum (f : Point3D → ℝ) :
    ∀ (l : List Point3D) (a : ℝ),
      List.foldl (fun t p => t + f p) a l = a + (l.map f).sum := by
  intro l
  induction l with
  | nil => intro a; simp
  | cons p l ih =>
      intro a
      simp only [List.foldl_cons, List.map_cons, List.sum_cons, ih]
      ring

/-- calculateError is the sum of the squared residuals of the points. -/
lemma calculateError_eq_sum (points : List Point3D) (equation : PlaneEquation) :
    calculateError points equation =
      (points.map fun p =>
        (p.y - (equation.beta0 + equation.beta1 * p.x +
          equation.beta2 * p.z)) ^ 2).sum := by
  show List.foldl
      (fun t p =>
        t + (p.y - (equation.beta0 + equation.beta1 * p.x +
          equation.beta2 * p.z)) ^ 2) 0 points = _
  rw [foldl_add_eq_sum
    (fun p =>
      (p.y - (equation.beta0 + equation.beta1 * p.x +
        equation.beta2 * p.z)) ^ 2)]
  rw [zero_add]

/-- C5: calculateError equals the sum over the points of the squared
residual (y minus beta0 + beta1 * x + beta2 * z); it is exactly 0 on the
empty sequence and non-negative on every input. -/
theorem c5_calculateError_sum_of_squares
    (points : List Point3D) (equation : PlaneEquation) :
    calculateError points equation =
      (points.map fun p =>
        (p.y - (equation.beta0 + equation.beta1 * p.x +
          equation.beta2 * p.z)) ^ 2).sum ∧
    calculateError [] equation = 0 ∧
    0 ≤ calculateError points equation := by
  refine ⟨calculateError_eq_sum points equation, rfl, ?_⟩
  rw [calculateError_eq_sum]
  apply List.sum_nonneg
  intro t ht
  obtain ⟨p, hp, rfl⟩ := List.mem_map.mp ht
  positivity

/-- C8: calculateError is invariant under permutation of the point
sequence. -/
theorem c8_calculateError_perm_invariant
    (points₁ points₂ : List Point3D) (equation : PlaneEquation)
    (h : points₁.Perm points₂) :
    calculateError points₁ equation = calculateError points₂ equation := by
  rw [calculateError_eq_sum, calculateError_eq_sum]
  exact List.Perm.sum_eq (h.map _)

/-- C8 witness: the theorem applied to a concrete two point list and its
transposition, with a concrete plane equation. -/
theorem c8_witness :
    calculateError [⟨1, 2, 3⟩, ⟨4, 5, 6⟩] ⟨1, 2, 3, (0, 0, 0)⟩ =
      calculateError [⟨4, 5, 6⟩, ⟨1, 2, 3⟩] ⟨1, 2, 3, (0, 0, 0)⟩ :=
  c8_calculateError_perm_invariant _ _ _ (List.Perm.swap _ _ _)

/-- The x coordinate produced by generatePoint, written out. -/
lemma generatePoint_x (noise r1 r2 r3 : ℝ) :
    (generatePoint noise r1 r2 r3).x = (r1 - 0.5) * CUBE_SIZE * 0.8 := rfl

/-- The z coordinate produced by generatePoint, written out. -/
lemma generatePoint_z (noise r1 r2 r3 : ℝ) :
    (generatePoint noise r1 r2 r3).z = (r2 - 0.5) * CUBE_SIZE * 0.8 := rfl

/-- The y coordinate produced by generatePoint, written out: the linear model
value plus the noise term, clamped into [-HALF_SIZE * 0.9, HALF_SIZE * 0.9]. -/
lemma generatePoint_y (noise r1 r2 r3 : ℝ) :
    (generatePoint noise r1 r2 r3).y =
      max (-HALF_SIZE * 0.9) (min (HALF_SIZE * 0.9)
        ((0 : ℝ) + 0.5 * ((r1 - 0.5) * CUBE_SIZE * 0.8) +
          -0.3 * ((r2 - 0.5) * CUBE_SIZE * 0.8) +
          (r3 - 0.5) * noise * CUBE_SIZE * 0.4)) := rfl

/-- The clamp in generatePoint keeps any real inside
[-(0.45 * CUBE_SIZE), 0.45 * CUBE_SIZE]. -/
lemma clamp_bounds (y : ℝ) :
    -(0.45 * CUBE_SIZE) ≤
      max (-HALF_SIZE * 0.9) (min (HALF_SIZE * 0.9) y) ∧
    max (-HALF_SIZE * 0.9) (min (HALF_SIZE * 0.9) y) ≤ 0.45 * CUBE_SIZE := by
  constructor
  · exact le_trans (by norm_num [HALF_SIZE, CUBE_SIZE]) (le_max_left _ _)
  · apply max_le
    · norm_num [HALF_SIZE, CUBE_SIZE]
    · exact le_trans (min_le_left _ _) (by norm_num [HALF_SIZE, CUBE_SIZE])

/-- With zero noise and draws in [0, 1), one generated point lies exactly on
the ground truth plane y = 0.5 x - 0.3 z and its y is at most 0.45 times the
cube size in absolute value; in particular the clamp does not move it. -/
lemma generatePoint_zero_noise (r1 r2 r3 : ℝ)
    (h1 : 0 ≤ r1) (h1' : r1 < 1) (h2 : 0 ≤ r2) (h2' : r2 < 1) :
    (generatePoint 0 r1 r2 r3).y =
      0.5 * (generatePoint 0 r1 r2 r3).x -
        0.3 * (generatePoint 0 r1 r2 r3).z ∧
    |(generatePoint 0 r1 r2 r3).y| ≤ 0.45 * CUBE_SIZE := by
  have hmin : min (HALF_SIZE * 0.9)
      ((0 : ℝ) + 0.5 * ((r1 - 0.5) * CUBE_SIZE * 0.8) +
        -0.3 * ((r2 - 0.5) * CUBE_SIZE * 0.8) +
        (r3 - 0.5) * 0 * CUBE_SIZE * 0.4) =
      (0 : ℝ) + 0.5 * ((r1 - 0.5) * CUBE_SIZE * 0.8) +
        -0.3 * ((r2 - 0.5) * CUBE_SIZE * 0.8) +
        (r3 - 0.5) * 0 * CUBE_SIZE * 0.4 := by
    apply min_eq_right
    simp only [HALF_SIZE, CUBE_SIZE]
    nlinarith
  have hmax : max (-HALF_SIZE * 0.9)
      ((0 : ℝ) + 0.5 * ((r1 - 0.5) * CUBE_SIZE * 0.8) +
        -0.3 * ((r2 - 0.5) * CUBE_SIZE * 0.8) +
        (r3 - 0.5) * 0 * CUBE_SIZE * 0.4) =
      (0 : ℝ) + 0.5 * ((r1 - 0.5) * CUBE_SIZE * 0.8) +
        -0.3 * ((r2 - 0.5) * CUBE_SIZE * 0.8) +
        (r3 - 0.5) * 0 * CUBE_SIZE * 0.4 := by
    apply max_eq_right
    simp only [HALF_SIZE, CUBE_SIZE]
    nlinarith
  constructor
  · rw [generatePoint_y, generatePoint_x, generatePoint_z, hmin, hmax]
    ring
  · rw [generatePoint_y, hmin, hmax, abs_le]
    constructor
    · simp only [CUBE_SIZE]
      nlinarith
    · simp only [CUBE_SIZE]
      nlinarith

/-- C6: with noise 0 and any count, every point returned by
generateDataPoints satisfies y = 0.5 x - 0.3 z exactly (the clamp never
alters y) and has |y| at most 0.45 * CUBE_SIZE = 2.25. The Math.random()
draws are modelled as a stream rand of values in [0, 1). -/
theorem c6_zero_noise_points_exact (count : ℕ) (rand : ℕ → ℝ)
    (hr : ∀ n, 0 ≤ rand n ∧ rand n < 1) :
    ∀ p ∈ generateDataPoints count 0 rand,
      p.y = 0.5 * p.x - 0.3 * p.z ∧ |p.y| ≤ 0.45 * CUBE_SIZE := by
  intro p hp
  simp only [generateDataPoints, List.mem_map, List.mem_range] at hp
  obtain ⟨i, hi, rfl⟩ := hp
  exact generatePoint_zero_noise _ _ _
    (hr (3 * i)).1 (hr (3 * i)).2 (hr (3 * i + 1)).1 (hr (3 * i + 1)).2

/-- C6 witness: the theorem applied to the constant zero stream and
count 1, at the single generated point. -/
theorem c6_witness :
    (generatePoint 0 0 0 0).y =
      0.5 * (generatePoint 0 0 0 0).x - 0.3 * (generatePoint 0 0 0 0).z ∧
    |(generatePoint 0 0 0 0).y| ≤ 0.45 * CUBE_SIZE :=
  c6_zero_noise_points_exact 1 (fun _ => 0) (by norm_num)
    (generatePoint 0 0 0 0) (by simp [generateDataPoints])

/-- C7: for every count, every noise value and every random stream,
generateDataPoints returns exactly count points and every returned y lies in
the clamp interval [-(0.45 * CUBE_SIZE), 0.45 * CUBE_SIZE]. -/
theorem c7_count_and_clamp_bounds (count : ℕ) (noise : ℝ) (rand : ℕ → ℝ) :
    (generateDataPoints count noise rand).length = count ∧
    ∀ p ∈ generateDataPoints count noise rand,
      -(0.45 * CUBE_SIZE) ≤ p.y ∧ p.y ≤ 0.45 * CUBE_SIZE := by
  constructor
  · simp [generateDataPoints]
  · intro p hp
    simp only [generateDataPoints, List.mem_map, List.mem_range] at hp
    obtain ⟨i, hi, rfl⟩ := hp
    rw [generatePoint_y]
    exact clamp_bounds _

/-- HALF_SIZE unfolded to CUBE_SIZE / 2. -/
lemma HALF_SIZE_eq : HALF_SIZE = CUBE_SIZE / 2 := rfl

/-- C9: whenever the y component of the normal is nonzero, the predicted y
computed inside ErrorLines equals beta0 + beta1 * x + beta2 * z from
calculatePlaneEquation at the cube size CUBE_SIZE, for the x and z of the
point, and the residual segment joins the observed point to the point with
the same x and z and the predicted y. -/
theorem c9_errorLines_agrees_with_plane_equation
    (height xRotation zRotation : ℝ) (p : Point3D)
    (hb : (calculatePlaneEquation height xRotation zRotation
      CUBE_SIZE).normalY ≠ 0) :
    errorLinesPredictedY height xRotation zRotation p =
      (calculatePlaneEquation height xRotation zRotation CUBE_SIZE).beta0 +
        (calculatePlaneEquation height xRotation zRotation CUBE_SIZE).beta1 *
          p.x +
        (calculatePlaneEquation height xRotation zRotation CUBE_SIZE).beta2 *
          p.z ∧
    (errorLinesSegment height xRotation zRotation p).1 = p ∧
    (errorLinesSegment height xRotation zRotation p).2.x = p.x ∧
    (errorLinesSegment height xRotation zRotation p).2.z = p.z ∧
    (errorLinesSegment height xRotation zRotation p).2.y =
      errorLinesPredictedY height xRotation zRotation p := by
  refine ⟨?_, rfl, rfl, rfl, rfl⟩
  rw [calculatePlaneEquation_normalY] at hb
  rw [errorLinesPredictedY_eq, calculatePlaneEquation_beta0,
    calculatePlaneEquation_beta1, calculatePlaneEquation_beta2,
    HALF_SIZE_eq]
  generalize Real.sin (Real.pi / 2 + xRotation * Real.pi / 180) = sA
  generalize Real.sin (zRotation * Real.pi / 180) = sB
  generalize hgA : Real.cos (Real.pi / 2 + xRotation * Real.pi / 180) = cA
    at hb
  generalize hgB : Real.cos (zRotation * Real.pi / 180) = cB at hb
  obtain ⟨ha, hc⟩ := mul_ne_zero_iff.mp hb
  field_simp
  ring

/-- C9 witness: the theorem applied at height = 0, xRotation = 90,
zRotation = 0 and the point (1, 2, 3), where the y component of the normal
is -1. -/
theorem c9_witness :
    errorLinesPredictedY 0 90 0 ⟨1, 2, 3⟩ =
      (calculatePlaneEquation 0 90 0 CUBE_SIZE).beta0 +
        (calculatePlaneEquation 0 90 0 CUBE_SIZE).beta1 * 1 +
        (calculatePlaneEquation 0 90 0 CUBE_SIZE).beta2 * 3 ∧
    (errorLinesSegment 0 90 0 ⟨1, 2, 3⟩).1 = ⟨1, 2, 3⟩ ∧
    (errorLinesSegment 0 90 0 ⟨1, 2, 3⟩).2.x = 1 ∧
    (errorLinesSegment 0 90 0 ⟨1, 2, 3⟩).2.z = 3 ∧
    (errorLinesSegment 0 90 0 ⟨1, 2, 3⟩).2.y =
      errorLinesPredictedY 0 90 0 ⟨1, 2, 3⟩ :=
  c9_errorLines_agrees_with_plane_equation 0 90 0 ⟨1, 2, 3⟩
    (by rw [normalY_at_ninety_zero]; norm_num)
